import Mathlib

/-!
Verification of the SmartGen cloud-bridge add-on (four Python modules:
`smartgen_bridge.py`, `smartgen_client.py`, `smartgen_cloud_bridge.py`,
`main.py`) against its natural-language specification.

The Python data model is shallowly embedded: JSON-ish Python values become
the inductive `Py.PyVal`, dictionaries become association lists (first
binding wins, as Python dict keys are unique), bytes become `List Nat`,
and library primitives that are not part of the repository (hashlib md5,
base64, AES, SM4, UTF-8 codecs, json) are taken as explicit function
parameters so that each repository function is a total Lean function of
its own code plus those primitives.  Exceptions are modelled with
`Option`.
-/

namespace Py

/-- A Python value as it appears in the JSON-ish payloads handled by the
repository: `None`, booleans, integers, strings, lists and string-keyed
dictionaries.  (Floats do not occur in any code path a claim touches.) -/
inductive PyVal where
  | none
  | bool (b : Bool)
  | int (n : Int)
  | str (s : String)
  | list (xs : List PyVal)
  | dict (entries : List (String × PyVal))

/-- Python dictionaries with string keys, as association lists. -/
abbrev Dict := List (String × PyVal)

/-- First binding of a key in a dictionary, `none` when the key is absent. -/
def lookup? : Dict → String → Option PyVal
  | [], _ => Option.none
  | (k, v) :: rest, key => if k = key then some v else lookup? rest key

/-- Python `key in data`. -/
def hasKey (d : Dict) (key : String) : Bool := (lookup? d key).isSome

/-- Python `data.get(key)`: `None` when the key is absent. -/
def pyGet (d : Dict) (key : String) : PyVal := (lookup? d key).getD PyVal.none

/-- Python truthiness of a value (`bool(v)`). -/
def truthy : PyVal → Bool
  | .none => false
  | .bool b => b
  | .int n => n != 0
  | .str s => s ≠ ""
  | .list xs => !xs.isEmpty
  | .dict es => !es.isEmpty

/-- Python `a or b`: `a` when truthy, else `b`. -/
def pyOr (a b : PyVal) : PyVal := if truthy a then a else b

/-- Python `v not in (None, "")`: for the value types above, `v == None`
holds exactly for `None` and `v == ""` exactly for the empty string. -/
def notNoneOrEmptyStr : PyVal → Bool
  | .none => false
  | .str s => s ≠ ""
  | _ => true

/-- Python `str(v)` restricted to the constructors the code applies it to
(scalars; containers never reach a `str` call in the verified paths). -/
def pyStr : PyVal → String
  | .none => "None"
  | .bool b => if b then "True" else "False"
  | .int n => toString n
  | .str s => s
  | .list _ => "<list>"
  | .dict _ => "<dict>"

/-- Python `int(v)`: succeeds on bools, ints and integer-numeral strings;
raises (`none`) on `None`, lists and dicts and on non-numeric strings. -/
def pyInt? : PyVal → Option Int
  | .bool b => some (if b then 1 else 0)
  | .int n => some n
  | .str s => s.toInt?
  | _ => Option.none

/-- `d.setdefault(k, v)`: insert `(k, v)` only when `k` is absent. -/
def setdefault (d : Dict) (k : String) (v : PyVal) : Dict :=
  if hasKey d k then d else d ++ [(k, v)]

/-- Whether a value is a Python dict. -/
def isDict : PyVal → Bool
  | .dict _ => true
  | _ => false

end Py

namespace Bridge

/-! Embedding of `smartgen_bridge.py` (module-level helpers and
`SmartGenBridge.parse_status`). -/

open Py

/-- `to_bool` from `smartgen_bridge.py`: bools pass through, numbers are
truthy iff nonzero, strings iff lowercased in `{"true","on","yes","1"}`,
anything else is `False`. -/
def to_bool : PyVal → Bool
  | .bool b => b
  | .int n => n != 0
  | .str s => s.toLower ∈ ["true", "on", "yes", "1"]
  | _ => false

/-- `coalesce` from `smartgen_bridge.py`: first listed key that is present
with a value not in `(None, "")`; otherwise the default. -/
def coalesce (data : Dict) : List String → PyVal → PyVal
  | [], default => default
  | key :: keys, default =>
    match lookup? data key with
    | some v => if notNoneOrEmptyStr v then v else coalesce data keys default
    | Option.none => coalesce data keys default

/-- Whether one key would be chosen by `coalesce`: present and with a
value not in `(None, "")`. -/
def qualifies (data : Dict) (key : String) : Bool :=
  hasKey data key && notNoneOrEmptyStr (pyGet data key)

/-- The `or`-chain `status.get("alarms") or status.get("alarm_list") or
status.get("AlarmList") or []` in `parse_status`. -/
def alarm_list_chain (status : Dict) : PyVal :=
  pyOr (pyGet status "alarms")
    (pyOr (pyGet status "alarm_list")
      (pyOr (pyGet status "AlarmList") (PyVal.list [])))

/-- `len(alarm_list) if isinstance(alarm_list, list) else int(alarm_list or 0)`;
`none` models the `int()` call raising. -/
def alarm_count? (status : Dict) : Option Int :=
  match alarm_list_chain status with
  | .list xs => some (xs.length : Int)
  | v => pyInt? (pyOr v (PyVal.int 0))

/-- The normalized record returned by `SmartGenBridge.parse_status`. -/
structure ParsedStatus where
  rpm : PyVal
  frequency_hz : PyVal
  voltage_l1_l2 : PyVal
  voltage_l2_l3 : PyVal
  voltage_l3_l1 : PyVal
  kw : PyVal
  run_hours : PyVal
  alarm_count : Int
  alarm_present : Bool
  running : Bool
  auto_mode : Bool
  manual_mode : Bool
  mains_available : Bool
  genset_breaker_closed : Bool
  mains_breaker_closed : Bool
  state_text : String

/-- `SmartGenBridge.parse_status`.  `none` models the `ValueError` raised
by `int()` when the alarm field is a non-numeric scalar; every other
path is total.  `state_text` translates the two Python statements
`state_text = "running" if running else "stopped"` and
`if alarm_present: state_text = "alarm"`. -/
def parse_status (status : Dict) : Option ParsedStatus :=
  match alarm_count? status with
  | Option.none => Option.none
  | some ac =>
    let alarm_present := decide (ac > 0) || to_bool (pyGet status "alarm")
    let running :=
      to_bool (coalesce status ["running", "run_state", "runState", "is_running", "Run"] (PyVal.bool false))
    some
      { rpm := coalesce status ["rpm", "RPM", "speed", "gensetrpm"] (PyVal.int 0)
        frequency_hz := coalesce status ["hz", "frequency", "Frequency"] (PyVal.int 0)
        voltage_l1_l2 := coalesce status ["voltage_l1_l2", "uab", "Uab", "u_ab", "ua"] (PyVal.int 0)
        voltage_l2_l3 := coalesce status ["voltage_l2_l3", "ubc", "Ubc", "u_bc", "ub"] (PyVal.int 0)
        voltage_l3_l1 := coalesce status ["voltage_l3_l1", "uca", "Uca", "u_ca", "uc"] (PyVal.int 0)
        kw := coalesce status ["kw", "power_kw", "active_power", "kW"] (PyVal.int 0)
        run_hours := coalesce status ["run_hours", "runtime", "TotalRunTime", "runhour", "runtotal"] (PyVal.int 0)
        alarm_count := ac
        alarm_present := alarm_present
        running := running
        auto_mode := to_bool (coalesce status ["auto", "auto_mode", "AutoMode", "IsAuto"] (PyVal.bool false))
        manual_mode := to_bool (coalesce status ["manual", "manual_mode", "ManualMode"] (PyVal.bool false))
        mains_available := to_bool (coalesce status ["mains", "mains_available", "GridAvailable", "MainsAvailable"] (PyVal.bool false))
        genset_breaker_closed := to_bool (coalesce status ["genset_breaker", "genset_breaker_closed", "GenBreaker", "GenBreakerClosed"] (PyVal.bool false))
        mains_breaker_closed := to_bool (coalesce status ["mains_breaker", "mains_breaker_closed", "MainsBreaker", "MainsBreakerClosed"] (PyVal.bool false))
        state_text := if alarm_present then "alarm" else if running then "running" else "stopped" }

end Bridge

namespace MainPy

/-! Embedding of `main.py` (`SmartGenMqttBridge._to_bool`,
`SmartGenMqttBridge._coalesce`, `SmartGenMqttBridge._derive_status`,
`SmartGenApiClient._normalize_payload`, `SmartGenBridge._backoff_delay`). -/

open Py

/-- `SmartGenMqttBridge._to_bool` (same logic as `Bridge.to_bool`; the
string set is written in its source order `{"true","1","on","yes"}`). -/
def to_bool : PyVal → Bool
  | .bool b => b
  | .int n => n != 0
  | .str s => s.toLower ∈ ["true", "1", "on", "yes"]
  | _ => false

/-- `SmartGenMqttBridge._coalesce` (same logic as `Bridge.coalesce`). -/
def coalesce (data : Dict) : List String → PyVal → PyVal
  | [], default => default
  | key :: keys, default =>
    match lookup? data key with
    | some v => if notNoneOrEmptyStr v then v else coalesce data keys default
    | Option.none => coalesce data keys default


/-- `SmartGenMqttBridge._derive_status`: `"alarm"` when the `alarm` or
`alarm_present` field or the `["alarm_count","alarms"]` coalesce is
truthy; else `"running"` when the running coalesce is truthy via
`_to_bool`; else `str(payload.get("status") or payload.get("state") or
"unknown")`.  A non-dict payload yields `"unknown"`. -/
def derive_status : PyVal → String
  | .dict payload =>
    if truthy (pyGet payload "alarm") || truthy (pyGet payload "alarm_present")
        || truthy (coalesce payload ["alarm_count", "alarms"] (PyVal.int 0)) then
      "alarm"
    else if to_bool (coalesce payload ["running", "run_state", "is_running", "Run"] (PyVal.bool false)) then
      "running"
    else
      pyStr (pyOr (pyGet payload "status") (pyOr (pyGet payload "state") (PyVal.str "unknown")))
  | _ => "unknown"

/-- `SmartGenApiClient._normalize_payload`: extract the candidate (nested
`data` mapping or list head, else the whole body), coerce to a dict, and
`setdefault("device_id", self.device_id)`.  Non-dict input returns `{}`. -/
def normalize_payload (device_id : String) : PyVal → Dict
  | .dict es =>
    let dv := pyGet es "data"
    let candidate : PyVal :=
      match dv with
      | .dict des => .dict des
      | .list xs => .list xs
      | _ => .dict es
    let candidate : PyVal :=
      match candidate with
      | .list [] => .dict []
      | .list (x :: _) => x
      | c => c
    let result : Dict :=
      match candidate with
      | .dict r => r
      | _ => []
    setdefault result "device_id" (PyVal.str device_id)
  | _ => []

/-- `SmartGenBridge._backoff_delay`: the failure counter only ever holds
non-negative values, so it is embedded as `Nat`; the configured poll
interval stays a Python `int`. -/
def backoff_delay (failure_count : Nat) (poll_interval : Int) : Int :=
  if failure_count ≤ 0 then poll_interval
  else
    let steps : List Int := [5, 10, 30]
    let idx := min (failure_count - 1) (steps.length - 1)
    min (steps.getD idx 0) poll_interval

end MainPy

namespace Cloud

/-! Embedding of `smartgen_cloud_bridge.py` (module-level crypto helpers
and `make_x_sign`).  `md5_hex` wraps `hashlib.md5(...).hexdigest()`, a
library primitive, so it is passed as a function parameter; the shared
secret `SIGN_SECRET` is likewise kept as a parameter so the signature
algebra is stated for every secret (the module fixes it to the constant
below). -/

def SIGN_SECRET : String := "fsh@TRuZ4dvcp5uY"

/-- `make_x_sign(timestamp, token, *, login)` from
`smartgen_cloud_bridge.py`, with the md5 hex digest and the module-level
secret abstracted as parameters. -/
def make_x_sign (md5_hex : String → String) (secret : String) (timestamp : Nat)
    (token : Option String) (login : Bool) : String :=
  let token_value := token.getD ""
  if token_value ≠ "" then
    let inner := md5_hex (token_value ++ toString timestamp ++ secret)
    md5_hex (token_value ++ toString timestamp ++ inner)
  else if login then
    let inner := md5_hex (toString timestamp ++ secret)
    md5_hex (toString timestamp ++ inner)
  else
    md5_hex (toString timestamp ++ secret)

/-- `pkcs7_pad` from `smartgen_cloud_bridge.py`. -/
def pkcs7_pad (data : List Nat) (block_size : Nat := 16) : List Nat :=
  let padding_len := block_size - data.length % block_size
  data ++ List.replicate padding_len padding_len

/-- `pkcs7_unpad` from `smartgen_cloud_bridge.py`; `none` models the
`ValueError` raised on empty input, an out-of-range final byte, or
mismatched padding bytes.  `data.drop (data.length - p)` is Python's
`data[-p:]` and `data.take (data.length - p)` is `data[:-p]` (Nat
subtraction clamps exactly as Python slices do). -/
def pkcs7_unpad (data : List Nat) (block_size : Nat := 16) : Option (List Nat) :=
  match data.getLast? with
  | Option.none => Option.none
  | some padding_len =>
    if padding_len < 1 ∨ block_size < padding_len then Option.none
    else if data.drop (data.length - padding_len) ≠ List.replicate padding_len padding_len then
      Option.none
    else some (data.take (data.length - padding_len))

end Cloud

namespace Cloud

/-- Library primitives used by `sm4_encrypt`/`sm4_decrypt` in
`smartgen_cloud_bridge.py`: base64, the gmssl SM4-ECB block cipher keyed
with the module's fixed key, and the UTF-8 codec.  They are parameters of
the embedding; the round-trip facts the libraries guarantee are
hypotheses of the theorems using them. -/
structure Sm4Prims where
  b64encode : List Nat → String
  b64decode : String → Option (List Nat)
  crypt_ecb_enc : List Nat → List Nat
  crypt_ecb_dec : List Nat → List Nat
  utf8_encode : String → List Nat
  utf8_decode : List Nat → Option String

/-- `sm4_encrypt` from `smartgen_cloud_bridge.py`:
`b64encode(crypt_ecb(pkcs7_pad(plaintext.encode("utf-8"))))`. -/
def sm4_encrypt (P : Sm4Prims) (plaintext : String) : String :=
  P.b64encode (P.crypt_ecb_enc (pkcs7_pad (P.utf8_encode plaintext)))

/-- `sm4_decrypt` from `smartgen_cloud_bridge.py`:
`pkcs7_unpad(crypt_ecb(b64decode(c))).decode("utf-8")`; `none` models the
exceptions of `b64decode`, `pkcs7_unpad` and `.decode`. -/
def sm4_decrypt (P : Sm4Prims) (ciphertext_b64 : String) : Option String :=
  match P.b64decode ciphertext_b64 with
  | Option.none => Option.none
  | some cipher_bytes =>
    match pkcs7_unpad (P.crypt_ecb_dec cipher_bytes) with
    | Option.none => Option.none
    | some unpadded => P.utf8_decode unpadded

end Cloud

namespace Cloud

/-- The control-relevant content of an HTTP response to
`_post_encrypted`: the status code, whether the lowercased body contains
both "token" and "invalid", and the token fields `login` reads out of the
decoded `data`. -/
structure Response where
  status : Nat
  token_invalid_body : Bool
  data_token : Option String
  data_utoken : Option String

/-- Session state of `SmartGenCloudBridge` plus two counters: the index
of the next HTTP POST (feeding the response oracle) and the number of
`_auto_refresh_token` re-login attempts performed. -/
structure BridgeState where
  token : String
  utoken : String
  calls : Nat
  relogins : Nat

/-- Outcome of `_post_encrypted`: a decoded response (carrying the token
fields `login` would read), the `HTTPError` from `raise_for_status`, or
exhaustion of the recursion-depth budget.  The Python source has no such
budget; `exhausted` marks exactly the runs that would recurse forever. -/
inductive PostResult where
  | ok (data_token data_utoken : Option String)
  | http_error (status : Nat)
  | exhausted

/-- Whether a `_post_encrypted` outcome is a decoded response. -/
def is_ok : PostResult → Bool
  | .ok _ _ => true
  | _ => false

/-- `SmartGenCloudBridge._update_tokens`: `if token:` keeps non-empty
tokens only; `if utoken is not None:` stores any non-`None` utoken. -/
def update_tokens (token utoken : Option String) (st : BridgeState) : BridgeState :=
  let st1 := match token with
    | some t => if t ≠ "" then { st with token := t } else st
    | Option.none => st
  match utoken with
  | some u => { st1 with utoken := u }
  | Option.none => st1

/-- `SmartGenCloudBridge._post_encrypted` with `_auto_refresh_token` and
`login` inlined, driven by a response oracle (POST index and login flag
to response) and a fuel bound on recursion depth.  Mirrors the source:
on a 401 (when not already a login) a successful `_auto_refresh_token`
triggers a recursive retry; otherwise the body is checked for
"token"/"invalid" and a successful refresh again triggers a recursive
retry; otherwise `raise_for_status` then decode.  A refresh attempt
increments `relogins` and performs one login POST; a login that returns a
decoded body updates the stored tokens, while an `HTTPError` inside it is
swallowed (`_auto_refresh_token` returns `False`).  `has_credentials` is
`bool(self.username and self.password)`. -/
def post_encrypted (oracle : Nat → Bool → Response) (has_credentials : Bool) :
    Nat → Bool → BridgeState → PostResult × BridgeState
  | 0, _, st => (PostResult.exhausted, st)
  | fuel + 1, login, st =>
    let recurse := post_encrypted oracle has_credentials fuel
    let resp := oracle st.calls login
    let st1 : BridgeState := { st with calls := st.calls + 1 }
    let refresh : BridgeState → Bool × BridgeState := fun s =>
      if has_credentials then
        match recurse true { s with relogins := s.relogins + 1 } with
        | (PostResult.ok tk utk, s2) => (true, update_tokens tk utk s2)
        | (_, s2) => (false, s2)
      else (false, s)
    let finish : BridgeState → PostResult × BridgeState := fun s =>
      if 400 ≤ resp.status then (PostResult.http_error resp.status, s)
      else (PostResult.ok resp.data_token resp.data_utoken, s)
    let body_check : BridgeState → PostResult × BridgeState := fun s =>
      if !login && resp.token_invalid_body then
        match refresh s with
        | (true, s2) => recurse login s2
        | (false, s2) => finish s2
      else finish s
    if !login && resp.status == 401 then
      match refresh st1 with
      | (true, s2) => recurse login s2
      | (false, s2) => body_check s2
    else body_check st1

/-- A server with a permanently invalid session: every non-login POST
returns HTTP 401, while login POSTs succeed and return fresh tokens. -/
def invalid_session_oracle : Nat → Bool → Response := fun _ login =>
  if login then
    { status := 200, token_invalid_body := false,
      data_token := some "tok", data_utoken := some "utok" }
  else
    { status := 401, token_invalid_body := false,
      data_token := Option.none, data_utoken := Option.none }

end Cloud

namespace Client

/-! Embedding of `smartgen_client.py` crypto and signature helpers. -/

def DEFAULT_SIGN_SECRET : String := "smartgen"

/-- `_pkcs7_pad` from `smartgen_client.py` (same formula as the cloud
module's `pkcs7_pad`). -/
def pkcs7_pad (data : List Nat) (block_size : Nat := 16) : List Nat :=
  let padding := block_size - data.length % block_size
  data ++ List.replicate padding padding

/-- `_pkcs7_unpad` from `smartgen_client.py`: total; returns the input
unchanged on empty data or a final byte outside `[1, 16]`, and otherwise
strips the last `padding` bytes without checking that they all equal
`padding`. -/
def pkcs7_unpad (data : List Nat) : List Nat :=
  match data.getLast? with
  | Option.none => data
  | some padding =>
    if padding < 1 ∨ 16 < padding then data
    else data.take (data.length - padding)


/-- `SmartGenClient._build_signature`: `md5(token + utoken + timestamp +
sign_secret)` with the md5 hex digest abstracted; the timestamp is
already a string at this call site (`str(int(time.time() * 1000))`). -/
def build_signature (md5_hex : String → String)
    (token utoken timestamp sign_secret : String) : String :=
  md5_hex (token ++ utoken ++ timestamp ++ sign_secret)

end Client

namespace Client

/-- Library primitives used by `_encrypt_param`/`_decrypt_param` in
`smartgen_client.py`: base64, AES-CBC with the fixed key/IV, the UTF-8
codec (decode with `errors="ignore"`, hence total), and json.
`cbc_decrypt` is `Option`-valued because pycryptodome raises when the
input length is not a block multiple. -/
structure AesPrims where
  b64encode : List Nat → String
  b64decode : String → Option (List Nat)
  cbc_encrypt : List Nat → List Nat
  cbc_decrypt : List Nat → Option (List Nat)
  utf8_encode : String → List Nat
  utf8_decode_ignore : List Nat → String
  json_dumps : Py.Dict → String
  json_loads : String → Option Py.PyVal

/-- `_safe_json_loads`: the parsed JSON value, or `{}` when `json.loads`
raises.  Note the annotation in the source says `Dict[str, Any]` but the
function returns whatever JSON value parses. -/
def safe_json_loads (json_loads : String → Option Py.PyVal) (text : String) : Py.PyVal :=
  match json_loads text with
  | some v => v
  | Option.none => Py.PyVal.dict []

/-- `SmartGenClient._encrypt_param`:
`b64encode(AES_CBC.encrypt(_pkcs7_pad(json.dumps(payload).encode())))`. -/
def encrypt_param (P : AesPrims) (payload : Py.Dict) : String :=
  P.b64encode (P.cbc_encrypt (pkcs7_pad (P.utf8_encode (P.json_dumps payload))))

/-- `SmartGenClient._decrypt_param`: every exception inside the `try`
(b64decode, AES decrypt) yields `{}`; `_pkcs7_unpad` and the
`errors="ignore"` decode are total; `_safe_json_loads` turns JSON
failures into `{}`. -/
def decrypt_param (P : AesPrims) (encoded : String) : Py.PyVal :=
  match P.b64decode encoded with
  | Option.none => Py.PyVal.dict []
  | some decoded =>
    match P.cbc_decrypt decoded with
    | Option.none => Py.PyVal.dict []
    | some decrypted =>
      safe_json_loads P.json_loads (P.utf8_decode_ignore (pkcs7_unpad decrypted))

end Client

namespace Client

/-- The response-normalization tail of `SmartGenClient.fetch_status`,
after `_parse_response` returned a mapping `data`: the payload is the
decrypted `data` string, a nested `data` mapping, or the whole body; then
`payload = payload or {}` and
`payload.setdefault("device_id", self.address)`.  `none` models the
`AttributeError` Python would raise if the decrypted payload were not a
mapping. -/
def fetch_status_normalize (decrypt : String → Py.PyVal) (address : String)
    (data : Py.Dict) : Option Py.Dict :=
  let payloadV : Py.PyVal :=
    match Py.pyGet data "data" with
    | .str s => decrypt s
    | .dict des => .dict des
    | _ => .dict data
  match Py.pyOr payloadV (Py.PyVal.dict []) with
  | .dict es => some (Py.setdefault es "device_id" (Py.PyVal.str address))
  | _ => Option.none

end Client

namespace Codec

/-! Concrete invertible codecs used only to witness the primitive
round-trip hypotheses at a concrete instance: a unary byte-list/string
codec and a codepoint codec. -/

def natsToStr (bs : List Nat) : String :=
  String.mk (List.flatten (bs.map fun n => List.replicate n 'a' ++ ['b']))

def decAux : List Char → Nat → Option (List Nat)
  | [], cnt => if cnt = 0 then some [] else Option.none
  | c :: rest, cnt =>
    if c = 'a' then decAux rest (cnt + 1)
    else if c = 'b' then (decAux rest 0).map (fun l => cnt :: l)
    else Option.none

def strToNats? (s : String) : Option (List Nat) := decAux s.data 0

def strToCodes (s : String) : List Nat := s.data.map Char.toNat

def codesToStr (bs : List Nat) : String := String.mk (bs.map Char.ofNat)

/-- Witness SM4 primitives: identity block cipher, unary base64 stand-in,
codepoint UTF-8 stand-in. -/
def sm4_prims : Cloud.Sm4Prims :=
  { b64encode := natsToStr
    b64decode := strToNats?
    crypt_ecb_enc := fun bs => bs
    crypt_ecb_dec := fun bs => bs
    utf8_encode := strToCodes
    utf8_decode := fun bs => some (codesToStr bs) }

/-- Witness AES primitives, with a json stand-in fixed at the concrete
mapping used by the witness. -/
def aes_prims : Client.AesPrims :=
  { b64encode := natsToStr
    b64decode := strToNats?
    cbc_encrypt := fun bs => bs
    cbc_decrypt := fun bs => some bs
    utf8_encode := strToCodes
    utf8_decode_ignore := codesToStr
    json_dumps := fun _ => "jsontext"
    json_loads := fun _ => some (Py.PyVal.dict [("hello", Py.PyVal.str "world")]) }

/-- Witness decrypting primitive that always yields an empty mapping. -/
def const_empty_decrypt : String → Py.PyVal := fun _ => Py.PyVal.dict []

/-- Witness AES primitives whose base64 decoder rejects every input. -/
def aes_prims_fail : Client.AesPrims :=
  { b64encode := natsToStr
    b64decode := fun _ => Option.none
    cbc_encrypt := fun bs => bs
    cbc_decrypt := fun bs => some bs
    utf8_encode := strToCodes
    utf8_decode_ignore := codesToStr
    json_dumps := fun _ => ""
    json_loads := fun _ => Option.none }

/-- AES primitives realizing the situation in which the decrypted,
unpadded text is the JSON array `[11111111111111]`: the base64 decoder
yields that 16-byte ASCII block, the block cipher is the identity on it,
and the json parser parses exactly that text to the array. -/
def aes_prims_json_list : Client.AesPrims :=
  { b64encode := natsToStr
    b64decode := fun _ => some (strToCodes "[11111111111111]")
    cbc_encrypt := fun bs => bs
    cbc_decrypt := fun bs => some bs
    utf8_encode := strToCodes
    utf8_decode_ignore := codesToStr
    json_dumps := fun _ => ""
    json_loads := fun s =>
      if s = "[11111111111111]" then
        some (Py.PyVal.list [Py.PyVal.int 11111111111111])
      else Option.none }

end Codec

namespace Py

theorem lookup?_append_self (k : String) (v : PyVal) :
    ∀ d : Dict, (lookup? d k).isSome = false → lookup? (d ++ [(k, v)]) k = some v := by
  intro d
  induction d with
  | nil => intro _; simp [lookup?]
  | cons kv rest ih =>
    intro h
    rw [List.cons_append]
    match kv with
    | (k1, v1) =>
      simp only [lookup?] at h ⊢
      by_cases hk : k1 = k
      · rw [if_pos hk] at h; simp at h
      · rw [if_neg hk] at h ⊢
        exact ih h

theorem hasKey_setdefault (d : Dict) (k : String) (v : PyVal) :
    hasKey (setdefault d k v) k = true := by
  unfold setdefault
  by_cases h : hasKey d k = true
  · rw [if_pos h]; exact h
  · rw [if_neg h]
    have h' : (lookup? d k).isSome = false := by
      unfold hasKey at h
      exact Bool.not_eq_true _ ▸ Bool.eq_false_iff.mpr h
    unfold hasKey
    rw [lookup?_append_self k v d h']
    rfl

theorem lookup?_setdefault_of_absent (d : Dict) (k : String) (v : PyVal)
    (h : hasKey d k = false) : lookup? (setdefault d k v) k = some v := by
  unfold setdefault
  rw [h]
  simp only [Bool.false_eq_true, if_false]
  exact lookup?_append_self k v d h

theorem pyOr_dict_left (a : List (String × PyVal)) :
    ∃ r, pyOr (PyVal.dict a) (PyVal.dict []) = PyVal.dict r := by
  unfold pyOr
  by_cases h : truthy (PyVal.dict a) = true
  · rw [if_pos h]; exact ⟨a, rfl⟩
  · rw [if_neg h]; exact ⟨[], rfl⟩

end Py

namespace Bridge

open Py

theorem coalesce_eq_default (data : Dict) (d : PyVal) :
    ∀ keys : List String, (∀ k ∈ keys, qualifies data k = false) →
      coalesce data keys d = d := by
  intro keys
  induction keys with
  | nil => intro _; rfl
  | cons key rest ih =>
    intro h
    have hk := h key (by simp)
    simp only [coalesce]
    cases heq : lookup? data key with
    | none => exact ih fun k hm => h k (by simp [hm])
    | some v =>
      simp only [qualifies, hasKey, pyGet, heq, Option.isSome_some, Option.getD_some,
        Bool.true_and] at hk
      show (if notNoneOrEmptyStr v = true then v else coalesce data rest d) = d
      rw [hk]
      simp only [Bool.false_eq_true, if_false]
      exact ih fun k hm => h k (by simp [hm])

theorem coalesce_first_qualifying (data : Dict) (d : PyVal) :
    ∀ (ks1 : List String) (key : String) (ks2 : List String) (v : PyVal),
      lookup? data key = some v → notNoneOrEmptyStr v = true →
      (∀ k ∈ ks1, qualifies data k = false) →
      coalesce data (ks1 ++ key :: ks2) d = v := by
  intro ks1
  induction ks1 with
  | nil =>
    intro key ks2 v hv hq _
    rw [List.nil_append]
    simp only [coalesce, hv, hq, if_true]
  | cons k1 rest ih =>
    intro key ks2 v hv hq h
    have hk1 := h k1 (by simp)
    rw [List.cons_append]
    simp only [coalesce]
    cases heq : lookup? data k1 with
    | none => exact ih key ks2 v hv hq fun k hm => h k (by simp [hm])
    | some w =>
      simp only [qualifies, hasKey, pyGet, heq, Option.isSome_some, Option.getD_some,
        Bool.true_and] at hk1
      show (if notNoneOrEmptyStr w = true then w else coalesce data (rest ++ key :: ks2) d) = v
      rw [hk1]
      simp only [Bool.false_eq_true, if_false]
      exact ih key ks2 v hv hq fun k hm => h k (by simp [hm])

theorem alarm_count_of_list (status : Py.Dict) (L : List Py.PyVal)
    (h : alarm_list_chain status = Py.PyVal.list L) :
    alarm_count? status = some (L.length : Int) := by
  unfold alarm_count?
  rw [h]

end Bridge

namespace MainPy

open Py

theorem coalesce_eq_bridge (data : Dict) (keys : List String) (d : PyVal) :
    coalesce data keys d = Bridge.coalesce data keys d := by
  induction keys with
  | nil => rfl
  | cons key rest ih =>
    simp only [coalesce, Bridge.coalesce]
    cases lookup? data key with
    | none => exact ih
    | some v =>
      show (if notNoneOrEmptyStr v = true then v else coalesce data rest d)
        = (if notNoneOrEmptyStr v = true then v else Bridge.coalesce data rest d)
      by_cases hv : notNoneOrEmptyStr v = true
      · rw [hv]; simp
      · rw [Bool.eq_false_iff.mpr hv]
        simp only [Bool.false_eq_true, if_false]
        exact ih

end MainPy

namespace Cloud

theorem getLast?_append_replicate (xs : List Nat) (p c : Nat) (hp : 1 ≤ p) :
    (xs ++ List.replicate p c).getLast? = some c := by
  match p, hp with
  | q + 1, _ =>
    rw [List.replicate_succ', ← List.append_assoc]
    exact List.getLast?_concat _

theorem cloud_unpad_pad (data : List Nat) :
    pkcs7_unpad (pkcs7_pad data 16) 16 = some data := by
  have hlt : data.length % 16 < 16 := Nat.mod_lt _ (by norm_num)
  unfold pkcs7_pad pkcs7_unpad
  set p := 16 - data.length % 16 with hpdef
  have hp1 : 1 ≤ p := by omega
  rw [getLast?_append_replicate data p p hp1]
  show (if p < 1 ∨ 16 < p then Option.none
    else if (data ++ List.replicate p p).drop ((data ++ List.replicate p p).length - p)
        ≠ List.replicate p p then Option.none
    else some ((data ++ List.replicate p p).take ((data ++ List.replicate p p).length - p)))
    = some data
  rw [if_neg (by omega : ¬ (p < 1 ∨ 16 < p))]
  have hlen : (data ++ List.replicate p p).length - p = data.length := by
    simp
  rw [hlen, List.drop_left, List.take_left]
  simp

theorem login_call_ok (fuel : Nat) (st : BridgeState) :
    post_encrypted invalid_session_oracle true (fuel + 1) true st
      = (PostResult.ok (some "tok") (some "utok"), { st with calls := st.calls + 1 }) := by
  simp only [post_encrypted, invalid_session_oracle]
  norm_num

theorem step_401 (fuel : Nat) (st : BridgeState) :
    post_encrypted invalid_session_oracle true (fuel + 1 + 1) false st
      = post_encrypted invalid_session_oracle true (fuel + 1) false
          { st with
            calls := st.calls + 2
            relogins := st.relogins + 1
            token := "tok"
            utoken := "utok" } := by
  conv_lhs => rw [post_encrypted]
  simp only [invalid_session_oracle]
  rw [login_call_ok]
  simp [update_tokens]

end Cloud

namespace Client

theorem client_unpad_pad (data : List Nat) :
    pkcs7_unpad (pkcs7_pad data 16) = data := by
  have hlt : data.length % 16 < 16 := Nat.mod_lt _ (by norm_num)
  unfold pkcs7_pad pkcs7_unpad
  set p := 16 - data.length % 16 with hpdef
  have hp1 : 1 ≤ p := by omega
  rw [Cloud.getLast?_append_replicate data p p hp1]
  show (if p < 1 ∨ 16 < p then data ++ List.replicate p p
    else (data ++ List.replicate p p).take ((data ++ List.replicate p p).length - p)) = data
  rw [if_neg (by omega : ¬ (p < 1 ∨ 16 < p))]
  have hlen : (data ++ List.replicate p p).length - p = data.length := by
    simp
  rw [hlen, List.take_left]

end Client

namespace Codec

theorem decAux_replicate (t : List Char) (n cnt : Nat) :
    decAux (List.replicate n 'a' ++ 'b' :: t) cnt
      = (decAux t 0).map (fun l => (cnt + n) :: l) := by
  induction n generalizing cnt with
  | zero =>
    rw [List.replicate, List.nil_append]
    show (if 'b' = 'a' then decAux t (cnt + 1)
      else if 'b' = 'b' then (decAux t 0).map (fun l => cnt :: l)
      else Option.none) = (decAux t 0).map (fun l => (cnt + 0) :: l)
    rw [if_neg (by decide : ¬ ('b' = 'a')), if_pos rfl]
    simp
  | succ n ih =>
    rw [List.replicate_succ, List.cons_append]
    show (if 'a' = 'a' then decAux (List.replicate n 'a' ++ 'b' :: t) (cnt + 1)
      else if 'a' = 'b' then (decAux (List.replicate n 'a' ++ 'b' :: t) 0).map (fun l => cnt :: l)
      else Option.none) = (decAux t 0).map (fun l => (cnt + (n + 1)) :: l)
    rw [if_pos rfl, ih (cnt + 1)]
    have harith : cnt + 1 + n = cnt + (n + 1) := by omega
    rw [harith]

theorem strToNats_natsToStr (bs : List Nat) : strToNats? (natsToStr bs) = some bs := by
  show decAux (List.flatten (bs.map fun n => List.replicate n 'a' ++ ['b'])) 0 = some bs
  induction bs with
  | nil => rfl
  | cons n rest ih =>
    simp only [List.map_cons, List.flatten_cons, List.append_assoc, List.singleton_append]
    rw [decAux_replicate, ih]
    simp

theorem codesToStr_strToCodes (s : String) : codesToStr (strToCodes s) = s := by
  show String.mk ((s.data.map Char.toNat).map Char.ofNat) = s
  rw [List.map_map]
  have : (Char.ofNat ∘ Char.toNat) = fun c => c := by
    funext c
    exact Char.ofNat_toNat c

  rw [this, List.map_id']

end Codec

/-- Claim C6: `_backoff_delay` returns `pollInterval` at failure count 0,
`min 5 pollInterval` at 1, `min 10 pollInterval` at 2, `min 30
pollInterval` for every count ≥ 3, and never exceeds the configured
`pollInterval`. -/
theorem claim_C6_backoff_delay (n : Nat) (pi : Int) :
    (n = 0 → MainPy.backoff_delay n pi = pi) ∧
    (n = 1 → MainPy.backoff_delay n pi = min 5 pi) ∧
    (n = 2 → MainPy.backoff_delay n pi = min 10 pi) ∧
    (3 ≤ n → MainPy.backoff_delay n pi = min 30 pi) ∧
    MainPy.backoff_delay n pi ≤ pi := by
  refine ⟨?_, ?_, ?_, ?_, ?_⟩
  · intro h; subst h; rfl
  · intro h; subst h; rfl
  · intro h; subst h; rfl
  · intro h
    obtain ⟨m, rfl⟩ : ∃ m, n = m + 3 := ⟨n - 3, by omega⟩
    unfold MainPy.backoff_delay
    rw [if_neg (by omega : ¬ m + 3 ≤ 0)]
    have hidx : min (m + 3 - 1) (([5, 10, 30] : List Int).length - 1) = 2 := by
      simp only [List.length_cons, List.length_nil]
      omega
    simp only [hidx, List.getD, List.get?_eq_getElem?]
    rfl
  · unfold MainPy.backoff_delay
    split
    · exact le_refl pi
    · exact min_le_right _ _

/-- Claim C6 witness: the theorem applied at failure count 3 and poll
interval 7 (so the 30-second step is capped at the interval). -/
theorem claim_C6_backoff_delay_witness :
    MainPy.backoff_delay 3 7 = min 30 7 :=
  (claim_C6_backoff_delay 3 7).2.2.2.1 (by decide)

/-- Claim C7: `coalesce` (smartgen_bridge.py) and `_coalesce` (main.py)
return the value of the first listed key present with a value neither
`None` nor `""`, and the default when no key qualifies; in particular for
a mapping holding both `rpm: 1200` and `RPM: 9999` and the rpm key list,
the first listed key wins with 1200. -/
theorem claim_C7_coalesce (data : Py.Dict) (d : Py.PyVal) :
    (∀ keys : List String, (∀ k ∈ keys, Bridge.qualifies data k = false) →
      Bridge.coalesce data keys d = d ∧ MainPy.coalesce data keys d = d) ∧
    (∀ (ks1 : List String) (key : String) (ks2 : List String) (v : Py.PyVal),
      Py.lookup? data key = some v → Py.notNoneOrEmptyStr v = true →
      (∀ k ∈ ks1, Bridge.qualifies data k = false) →
      Bridge.coalesce data (ks1 ++ key :: ks2) d = v ∧
      MainPy.coalesce data (ks1 ++ key :: ks2) d = v) ∧
    Bridge.coalesce [("rpm", Py.PyVal.int 1200), ("RPM", Py.PyVal.int 9999)]
      ["rpm", "RPM", "speed", "gensetrpm"] (Py.PyVal.int 0) = Py.PyVal.int 1200 ∧
    MainPy.coalesce [("rpm", Py.PyVal.int 1200), ("RPM", Py.PyVal.int 9999)]
      ["rpm", "RPM", "speed", "gensetrpm"] (Py.PyVal.int 0) = Py.PyVal.int 1200 := by
  refine ⟨?_, ?_, ?_, ?_⟩
  · intro keys h
    exact ⟨Bridge.coalesce_eq_default data d keys h,
      by rw [MainPy.coalesce_eq_bridge]; exact Bridge.coalesce_eq_default data d keys h⟩
  · intro ks1 key ks2 v hv hq h
    exact ⟨Bridge.coalesce_first_qualifying data d ks1 key ks2 v hv hq h,
      by rw [MainPy.coalesce_eq_bridge]
         exact Bridge.coalesce_first_qualifying data d ks1 key ks2 v hv hq h⟩
  · rfl
  · rfl

/-- Claim C7 witness: the theorem's first-qualifying-key case applied to
the concrete rpm mapping, with an empty prefix and key `"rpm"`. -/
theorem claim_C7_coalesce_witness :
    Bridge.coalesce [("rpm", Py.PyVal.int 1200), ("RPM", Py.PyVal.int 9999)]
      ([] ++ "rpm" :: ["RPM", "speed", "gensetrpm"]) (Py.PyVal.int 0) = Py.PyVal.int 1200 ∧
    MainPy.coalesce [("rpm", Py.PyVal.int 1200), ("RPM", Py.PyVal.int 9999)]
      ([] ++ "rpm" :: ["RPM", "speed", "gensetrpm"]) (Py.PyVal.int 0) = Py.PyVal.int 1200 :=
  (claim_C7_coalesce [("rpm", Py.PyVal.int 1200), ("RPM", Py.PyVal.int 9999)]
      (Py.PyVal.int 0)).2.1 [] "rpm" ["RPM", "speed", "gensetrpm"]
    (Py.PyVal.int 1200) rfl rfl (by intro k hk; simp at hk)

/-- Claim C2 counterexample: the input `[7, 7, 2]` has final byte 2 in
`[1, 16]` but its last two bytes `[7, 2]` differ from `[2, 2]`, a padding
violation; yet `_pkcs7_unpad` (smartgen_client.py) returns `[7]`, which is
neither a failure nor empty nor the unmodified input — silent
truncation, refuting the claim for that implementation. -/
theorem claim_C2_counterexample :
    Client.pkcs7_unpad [7, 7, 2] = [7] ∧
    ([7, 7, 2] : List Nat).drop 1 ≠ [2, 2] ∧
    ([7] : List Nat) ≠ [] ∧ ([7] : List Nat) ≠ [7, 7, 2] := by
  refine ⟨by decide, by decide, by decide, by decide⟩

/-- Claim C2 (amended): `pkcs7_unpad` in smartgen_cloud_bridge.py rejects
(raises, modelled `none`) every non-empty input whose final byte is
outside `[1, 16]` or whose last `p` bytes are not all `p`, and rejects
empty input; `_pkcs7_unpad` in smartgen_client.py instead never fails: it
returns the input unchanged when the final byte is outside `[1, 16]` (or
the input is empty) and otherwise strips the final `p` bytes without
validating them. -/
theorem claim_C2_unpad_validation (data : List Nat) (p : Nat)
    (hlast : data.getLast? = some p) :
    ((p < 1 ∨ 16 < p ∨ data.drop (data.length - p) ≠ List.replicate p p) →
      Cloud.pkcs7_unpad data 16 = Option.none) ∧
    ((p < 1 ∨ 16 < p) → Client.pkcs7_unpad data = data) ∧
    (1 ≤ p → p ≤ 16 → Client.pkcs7_unpad data = data.take (data.length - p)) ∧
    Cloud.pkcs7_unpad [] 16 = Option.none ∧
    Client.pkcs7_unpad [] = [] := by
  refine ⟨?_, ?_, ?_, rfl, rfl⟩
  · intro hbad
    simp only [Cloud.pkcs7_unpad, hlast]
    by_cases h1 : p < 1 ∨ 16 < p
    · rw [if_pos h1]
    · rw [if_neg h1]
      have h2 : data.drop (data.length - p) ≠ List.replicate p p := by tauto
      rw [if_pos h2]
  · intro h1
    simp only [Client.pkcs7_unpad, hlast]
    rw [if_pos h1]
  · intro hp1 hp16
    simp only [Client.pkcs7_unpad, hlast]
    rw [if_neg (by omega : ¬ (p < 1 ∨ 16 < p))]

/-- Claim C2 witness: the amended theorem applied to `[65, 17]`, whose
final byte 17 is out of range, so the cloud unpad rejects it and the
client unpad returns it unchanged. -/
theorem claim_C2_unpad_validation_witness :
    Cloud.pkcs7_unpad [65, 17] 16 = Option.none ∧
    Client.pkcs7_unpad [65, 17] = [65, 17] :=
  ⟨(claim_C2_unpad_validation [65, 17] 17 (by decide)).1 (by decide),
   (claim_C2_unpad_validation [65, 17] 17 (by decide)).2.1 (by decide)⟩

/-- Claim C4: `make_x_sign` computes `md5(k + t + md5(k + t + secret))`
when the token `k` is non-empty, `md5(t + md5(t + secret))` when the
token is empty or absent and `login` is true, and `md5(t + secret)` when
the token is empty or absent and `login` is false; and it is
deterministic — equal `(t, k, login)` inputs give equal output. -/
theorem claim_C4_make_x_sign (h : String → String) (secret : String) (t : Nat)
    (k : Option String) (login : Bool) :
    (k.getD "" ≠ "" →
      Cloud.make_x_sign h secret t k login
        = h (k.getD "" ++ toString t ++ h (k.getD "" ++ toString t ++ secret))) ∧
    (k.getD "" = "" → login = true →
      Cloud.make_x_sign h secret t k login = h (toString t ++ h (toString t ++ secret))) ∧
    (k.getD "" = "" → login = false →
      Cloud.make_x_sign h secret t k login = h (toString t ++ secret)) ∧
    (∀ (t' : Nat) (k' : Option String) (login' : Bool),
      t = t' → k = k' → login = login' →
      Cloud.make_x_sign h secret t k login = Cloud.make_x_sign h secret t' k' login') := by
  refine ⟨?_, ?_, ?_, ?_⟩
  · intro hk
    simp only [Cloud.make_x_sign, if_pos hk]
  · intro hk hl
    simp only [Cloud.make_x_sign, hk, hl]
    simp
  · intro hk hl
    simp only [Cloud.make_x_sign, hk, hl]
    simp
  · intro t' k' login' ht hk hl
    subst ht; subst hk; subst hl; rfl

/-- Claim C4 witness: the theorem's token-present case at `t = 5`,
`k = some "tok"`, with the identity function standing in for md5. -/
theorem claim_C4_make_x_sign_witness :
    Cloud.make_x_sign id "sec" 5 (some "tok") true
      = id ("tok" ++ toString 5 ++ id ("tok" ++ toString 5 ++ "sec")) :=
  (claim_C4_make_x_sign id "sec" 5 (some "tok") true).1 (by decide)

/-- Claim C8: for every timestamp `t` and shared secret, the degenerate
no-token non-login `make_x_sign` signature (smartgen_cloud_bridge.py)
equals the legacy `_build_signature` scheme (smartgen_client.py)
evaluated with empty token and utoken: both are `md5(str(t) + secret)`. -/
theorem claim_C8_degenerate_signature (h : String → String) (secret : String) (t : Nat) :
    Cloud.make_x_sign h secret t Option.none false
      = Client.build_signature h "" "" (toString t) secret := by
  simp only [Cloud.make_x_sign, Client.build_signature]
  norm_num

/-- Claim C3: decrypting the encryption of any plaintext recovers it in
both cipher modes — SM4-ECB (`sm4_decrypt ∘ sm4_encrypt`, for every
string) and AES-CBC (`_decrypt_param ∘ _encrypt_param`, for every
JSON-serializable mapping, i.e. one that round-trips through the json
library).  The library primitives are assumed to invert each other, which
is their documented behaviour; the padding logic and composition order
proved here are the repository's own. -/
theorem claim_C3_roundtrip
    (S : Cloud.Sm4Prims) (A : Client.AesPrims) (plaintext : String) (m : Py.Dict)
    (hSb64 : ∀ bs, S.b64decode (S.b64encode bs) = some bs)
    (hSecb : ∀ bs, S.crypt_ecb_dec (S.crypt_ecb_enc bs) = bs)
    (hSutf8 : ∀ s, S.utf8_decode (S.utf8_encode s) = some s)
    (hAb64 : ∀ bs, A.b64decode (A.b64encode bs) = some bs)
    (hAcbc : ∀ bs, A.cbc_decrypt (A.cbc_encrypt bs) = some bs)
    (hAutf8 : ∀ s, A.utf8_decode_ignore (A.utf8_encode s) = s)
    (hjson : A.json_loads (A.json_dumps m) = some (Py.PyVal.dict m)) :
    Cloud.sm4_decrypt S (Cloud.sm4_encrypt S plaintext) = some plaintext ∧
    Client.decrypt_param A (Client.encrypt_param A m) = Py.PyVal.dict m := by
  constructor
  · simp only [Cloud.sm4_decrypt, Cloud.sm4_encrypt, hSb64, hSecb,
      Cloud.cloud_unpad_pad, hSutf8]
  · simp only [Client.decrypt_param, Client.encrypt_param, hAb64, hAcbc,
      Client.client_unpad_pad, hAutf8, Client.safe_json_loads, hjson]

/-- Claim C3 witness: the round-trip theorem applied to the concrete
plaintext `"hi"` and the concrete mapping `{"hello": "world"}` with the
witness primitive implementations. -/
theorem claim_C3_roundtrip_witness :
    Cloud.sm4_decrypt Codec.sm4_prims (Cloud.sm4_encrypt Codec.sm4_prims "hi") = some "hi" ∧
    Client.decrypt_param Codec.aes_prims
        (Client.encrypt_param Codec.aes_prims [("hello", Py.PyVal.str "world")])
      = Py.PyVal.dict [("hello", Py.PyVal.str "world")] :=
  claim_C3_roundtrip Codec.sm4_prims Codec.aes_prims "hi" [("hello", Py.PyVal.str "world")]
    Codec.strToNats_natsToStr (fun _ => rfl)
    (fun s => congrArg some (Codec.codesToStr_strToCodes s))
    Codec.strToNats_natsToStr (fun _ => rfl)
    Codec.codesToStr_strToCodes rfl

/-- Claim C9 counterexample: a parsed response body that is a JSON array
(not a mapping) reaches `_normalize_payload` through
`JsonParser.parse_response`, and `_normalize_payload` then returns `{}`,
which omits `device_id` — refuting the claim's universal quantification
over raw response bodies. -/
theorem claim_C9_counterexample :
    MainPy.normalize_payload "addr1" (Py.PyVal.list [Py.PyVal.int 1]) = [] ∧
    Py.hasKey (MainPy.normalize_payload "addr1" (Py.PyVal.list [Py.PyVal.int 1]))
      "device_id" = false :=
  ⟨rfl, rfl⟩

/-- Claim C9 (amended): for every response body that parses to a mapping,
both normalizers return a snapshot that always carries `device_id`,
falling back to the configured address whenever the extracted payload
lacks it (the `fetch_status` side additionally assumes the decrypted
`data` string yields a mapping, which Python requires to proceed at all);
a non-mapping body makes `_normalize_payload` return `{}` without
`device_id`. -/
theorem claim_C9_device_id (decrypt : String → Py.PyVal) (address : String)
    (data es : Py.Dict)
    (hdec : ∀ s, ∃ ds, decrypt s = Py.PyVal.dict ds) :
    (∃ p, Client.fetch_status_normalize decrypt address data
        = some (Py.setdefault p "device_id" (Py.PyVal.str address)) ∧
      Py.hasKey (Py.setdefault p "device_id" (Py.PyVal.str address)) "device_id" = true ∧
      (Py.hasKey p "device_id" = false →
        Py.lookup? (Py.setdefault p "device_id" (Py.PyVal.str address)) "device_id"
          = some (Py.PyVal.str address))) ∧
    (∃ q, MainPy.normalize_payload address (Py.PyVal.dict es)
        = Py.setdefault q "device_id" (Py.PyVal.str address) ∧
      Py.hasKey (MainPy.normalize_payload address (Py.PyVal.dict es)) "device_id" = true ∧
      (Py.hasKey q "device_id" = false →
        Py.lookup? (MainPy.normalize_payload address (Py.PyVal.dict es)) "device_id"
          = some (Py.PyVal.str address))) := by
  constructor
  · have hpv : ∃ pv, (match Py.pyGet data "data" with
        | Py.PyVal.str s => decrypt s
        | Py.PyVal.dict des => Py.PyVal.dict des
        | _ => Py.PyVal.dict data) = Py.PyVal.dict pv := by
      cases Py.pyGet data "data" with
      | str s => exact hdec s
      | dict des => exact ⟨des, rfl⟩
      | none => exact ⟨data, rfl⟩
      | bool b => exact ⟨data, rfl⟩
      | int n => exact ⟨data, rfl⟩
      | list xs => exact ⟨data, rfl⟩
    obtain ⟨pv, hpv⟩ := hpv
    obtain ⟨r, hr⟩ := Py.pyOr_dict_left pv
    refine ⟨r, ?_, Py.hasKey_setdefault r "device_id" (Py.PyVal.str address),
      fun hab => Py.lookup?_setdefault_of_absent r "device_id" (Py.PyVal.str address) hab⟩
    simp only [Client.fetch_status_normalize, hpv, hr]
  · have hq : ∃ q, MainPy.normalize_payload address (Py.PyVal.dict es)
        = Py.setdefault q "device_id" (Py.PyVal.str address) := by
      simp only [MainPy.normalize_payload]
      cases Py.pyGet es "data" with
      | dict des => exact ⟨des, rfl⟩
      | list xs =>
        cases xs with
        | nil => exact ⟨[], rfl⟩
        | cons x rest =>
          cases x with
          | dict dr => exact ⟨dr, rfl⟩
          | none => exact ⟨[], rfl⟩
          | bool b => exact ⟨[], rfl⟩
          | int n => exact ⟨[], rfl⟩
          | str s => exact ⟨[], rfl⟩
          | list ys => exact ⟨[], rfl⟩
      | none => exact ⟨es, rfl⟩
      | bool b => exact ⟨es, rfl⟩
      | int n => exact ⟨es, rfl⟩
      | str s => exact ⟨es, rfl⟩
    obtain ⟨q, hq⟩ := hq
    refine ⟨q, hq, ?_, ?_⟩
    · rw [hq]; exact Py.hasKey_setdefault q "device_id" (Py.PyVal.str address)
    · intro hab
      rw [hq]
      exact Py.lookup?_setdefault_of_absent q "device_id" (Py.PyVal.str address) hab

/-- Claim C9 witness: the amended theorem at a concrete decrypting
primitive, address `"7"`, a body whose `data` field is an encrypted
string, and an empty body for `_normalize_payload`. -/
theorem claim_C9_device_id_witness :
    (Client.fetch_status_normalize Codec.const_empty_decrypt "7"
      [("data", Py.PyVal.str "enc")]).isSome = true ∧
    Py.hasKey (MainPy.normalize_payload "7" (Py.PyVal.dict [])) "device_id" = true := by
  obtain ⟨⟨p, hp, _, _⟩, ⟨q, hq, hk, _⟩⟩ :=
    claim_C9_device_id Codec.const_empty_decrypt "7" [("data", Py.PyVal.str "enc")] []
      (fun _ => ⟨[], rfl⟩)
  exact ⟨by rw [hp]; rfl, hk⟩

/-- Claim C10 counterexample: `_decrypt_param` does not always return a
dict.  AES-CBC decryption under the fixed key is a bijection on 16-byte
blocks, so some base64 ciphertext decrypts to the ASCII block
`[11111111111111]`; its final byte `]` (0x5D) is outside `[1, 16]`, so
`_pkcs7_unpad` leaves it unchanged, and `json.loads` then parses a JSON
array, which `_safe_json_loads` returns as-is.  The primitives below
instantiate exactly that situation, and the result is a list, not a
dict. -/
theorem claim_C10_counterexample :
    Client.decrypt_param Codec.aes_prims_json_list "ciphertext"
      = Py.PyVal.list [Py.PyVal.int 11111111111111] ∧
    Py.isDict (Client.decrypt_param Codec.aes_prims_json_list "ciphertext") = false := by
  constructor
  · rfl
  · rfl

/-- Claim C10 (amended): `_decrypt_param` is total (the embedding returns
a value for every input, matching the blanket `try/except`), every
base64, AES, or JSON failure yields `{}`, and otherwise the result is
whatever JSON value the decrypted text parses to — a dict whenever that
value is a JSON object, but a non-dict JSON value (e.g. an array) passes
through unchanged. -/
theorem claim_C10_decrypt_param_total (A : Client.AesPrims) (encoded : String) :
    (A.b64decode encoded = Option.none → Client.decrypt_param A encoded = Py.PyVal.dict []) ∧
    (∀ bs, A.b64decode encoded = some bs → A.cbc_decrypt bs = Option.none →
      Client.decrypt_param A encoded = Py.PyVal.dict []) ∧
    (∀ bs dec, A.b64decode encoded = some bs → A.cbc_decrypt bs = some dec →
      A.json_loads (A.utf8_decode_ignore (Client.pkcs7_unpad dec)) = Option.none →
      Client.decrypt_param A encoded = Py.PyVal.dict []) ∧
    (∀ bs dec v, A.b64decode encoded = some bs → A.cbc_decrypt bs = some dec →
      A.json_loads (A.utf8_decode_ignore (Client.pkcs7_unpad dec)) = some v →
      Client.decrypt_param A encoded = v) := by
  refine ⟨?_, ?_, ?_, ?_⟩
  · intro h1
    simp only [Client.decrypt_param, h1]
  · intro bs h1 h2
    simp only [Client.decrypt_param, h1, h2]
  · intro bs dec h1 h2 h3
    simp only [Client.decrypt_param, h1, h2, Client.safe_json_loads, h3]
  · intro bs dec v h1 h2 h3
    simp only [Client.decrypt_param, h1, h2, Client.safe_json_loads, h3]

/-- Claim C10 witness: the amended theorem's base64-failure case with a
primitive set whose base64 decoder rejects the input. -/
theorem claim_C10_decrypt_param_total_witness :
    Client.decrypt_param Codec.aes_prims_fail "not-base64" = Py.PyVal.dict [] :=
  (claim_C10_decrypt_param_total Codec.aes_prims_fail "not-base64").1 rfl

/-- Claim C5 counterexample: `_derive_status` (main.py) does not probe
`alarm_list` (only `alarm`, `alarm_present`, `alarm_count`, `alarms`), so
`{alarm_list: ["X"], running: true}` yields `"running"`, not the claimed
`"alarm"`; and with no alarm or running signal it falls back to the
free-text field or `"unknown"`, so `{alarm_list: [], running: false}`
yields `"unknown"`, not the claimed `"stopped"`. -/
theorem claim_C5_counterexample :
    MainPy.derive_status (Py.PyVal.dict
        [("alarm_list", Py.PyVal.list [Py.PyVal.str "X"]), ("running", Py.PyVal.bool true)])
      = "running" ∧
    ("running" : String) ≠ "alarm" ∧
    MainPy.derive_status (Py.PyVal.dict
        [("alarm_list", Py.PyVal.list []), ("running", Py.PyVal.bool false)])
      = "unknown" ∧
    ("unknown" : String) ≠ "stopped" := by
  refine ⟨rfl, by decide, rfl, by decide⟩

/-- Claim C5 (amended): the claimed precedence (alarm over running over
stopped, with the three examples) holds for `parse_status` in
smartgen_bridge.py, whose alarm signals are the `alarms` /`alarm_list`/
`AlarmList` list and the `alarm` flag; `_derive_status` in main.py probes
only `alarm`/`alarm_present`/`alarm_count`/`alarms` (not `alarm_list`) for
its alarm precedence, and when no alarm or running signal is present it
returns the free-text `status`/`state` field or `"unknown"` — it returns
`"stopped"` only when that free text says so.  Hence
`{alarm_list: ["X"], running: true}` gives `"running"` and
`{alarm_list: [], running: false}` gives `"unknown"` there. -/
theorem claim_C5_status_amended :
    (∀ (status : Py.Dict) (L : List Py.PyVal),
      Bridge.alarm_list_chain status = Py.PyVal.list L →
      ∃ p : Bridge.ParsedStatus, Bridge.parse_status status = some p ∧
        p.alarm_count = (L.length : Int) ∧
        p.alarm_present
          = (decide ((L.length : Int) > 0) || Bridge.to_bool (Py.pyGet status "alarm")) ∧
        p.running = Bridge.to_bool (Bridge.coalesce status
          ["running", "run_state", "runState", "is_running", "Run"] (Py.PyVal.bool false)) ∧
        p.state_text = (if p.alarm_present = true then "alarm"
          else if p.running = true then "running" else "stopped")) ∧
    (Bridge.parse_status [("alarm_list", Py.PyVal.list [Py.PyVal.str "X"]),
        ("running", Py.PyVal.bool true)]).map Bridge.ParsedStatus.state_text = some "alarm" ∧
    (Bridge.parse_status [("alarm_list", Py.PyVal.list []),
        ("running", Py.PyVal.bool true)]).map Bridge.ParsedStatus.state_text = some "running" ∧
    (Bridge.parse_status [("alarm_list", Py.PyVal.list []),
        ("running", Py.PyVal.bool false)]).map Bridge.ParsedStatus.state_text = some "stopped" ∧
    (∀ payload : Py.Dict, MainPy.derive_status (Py.PyVal.dict payload) = "stopped" →
      Py.pyStr (Py.pyOr (Py.pyGet payload "status")
        (Py.pyOr (Py.pyGet payload "state") (Py.PyVal.str "unknown"))) = "stopped") ∧
    MainPy.derive_status (Py.PyVal.dict
        [("alarm_list", Py.PyVal.list [Py.PyVal.str "X"]), ("running", Py.PyVal.bool true)])
      = "running" ∧
    MainPy.derive_status (Py.PyVal.dict
        [("alarm_list", Py.PyVal.list []), ("running", Py.PyVal.bool true)])
      = "running" ∧
    MainPy.derive_status (Py.PyVal.dict
        [("alarm_list", Py.PyVal.list []), ("running", Py.PyVal.bool false)])
      = "unknown" := by
  refine ⟨?_, rfl, rfl, rfl, ?_, rfl, rfl, rfl⟩
  · intro status L hL
    have hac := Bridge.alarm_count_of_list status L hL
    unfold Bridge.parse_status
    rw [hac]
    exact ⟨_, rfl, rfl, rfl, rfl, rfl⟩
  · intro payload h
    simp only [MainPy.derive_status] at h
    split_ifs at h with h1 h2
    · exact absurd h (by decide)
    · exact absurd h (by decide)
    · exact h

/-- Claim C5 witness: the amended theorem's general `parse_status` clause
applied to the concrete snapshot `{alarm_list: ["X"], running: true}`,
whose alarm chain is the list `["X"]`. -/
theorem claim_C5_status_amended_witness :
    (Bridge.parse_status [("alarm_list", Py.PyVal.list [Py.PyVal.str "X"]),
      ("running", Py.PyVal.bool true)]).isSome = true := by
  obtain ⟨p, hp, _⟩ := claim_C5_status_amended.1
    [("alarm_list", Py.PyVal.list [Py.PyVal.str "X"]), ("running", Py.PyVal.bool true)]
    [Py.PyVal.str "X"] rfl
  rw [hp]; rfl

/-- Claim C1 (code_bug): on a permanently invalid session with
credentials configured, `_post_encrypted` does not stop after one
re-login — for every recursion budget `fuel`, a single original call
performs exactly `fuel` re-login attempts (one per recursion level, so
unbounded in the Python source, which has no budget) and never reaches a
decoded result; no `AuthError` exists in the module to be raised. -/
theorem claim_C1_auth_retry_unbounded (fuel : Nat) (st : Cloud.BridgeState) :
    ((Cloud.post_encrypted Cloud.invalid_session_oracle true fuel false st).2.relogins
      = st.relogins + fuel) ∧
    Cloud.is_ok (Cloud.post_encrypted Cloud.invalid_session_oracle true fuel false st).1
      = false := by
  induction fuel generalizing st with
  | zero => exact ⟨rfl, rfl⟩
  | succ fuel ih =>
    cases fuel with
    | zero => exact ⟨rfl, rfl⟩
    | succ g =>
      rw [Cloud.step_401 g st]
      set s3 : Cloud.BridgeState :=
        { st with
          calls := st.calls + 2
          relogins := st.relogins + 1
          token := "tok"
          utoken := "utok" } with hs3
      obtain ⟨h1, h2⟩ := ih s3
      refine ⟨?_, h2⟩
      rw [h1, hs3]
      show st.relogins + 1 + (g + 1) = st.relogins + (g + 1 + 1)
      omega
